import Mathlib

/-!
Shallow embedding of the ZL3073X PTP/DPLL driver (src/zl3073x/ptp_zl3073x.c)
for checking the natural-language specification against the code.

Conventions used throughout:
* machine integers are modelled as `Nat` (unsigned) or `Int` (signed) with
  explicit wrap (`% 2^w`) where C arithmetic wraps;
* C's signed division/modulo (`div_s64`, `%` on int) truncate toward zero and
  are modelled with `Int.tdiv` / `Int.tmod`;
* register traffic is modelled as a trace of events (`Ev`): each embedded
  operation returns its return code together with the list of register reads,
  writes and semaphore polls it performs, in program order.  A write records
  the bytes as they arrive at the device, i.e. after the byte reversal done by
  `zl3073x_write` via `zl3073x_swap` (the device stores the most significant
  byte at the lowest address);
* bus-transport failures are not modelled (every `regmap` access is assumed
  to succeed); semaphore-poll outcomes are explicit parameters where a claim
  depends on them.
-/

namespace Zl3073x

/-- Truncation to an unsigned 8-bit byte. -/
def u8 (x : Nat) : Nat := x % 256

/-- Truncation to an unsigned 16-bit value. -/
def u16 (x : Nat) : Nat := x % 65536

/-- Truncation to an unsigned 32-bit value (C unsigned int arithmetic wraps here). -/
def u32 (x : Nat) : Nat := x % 4294967296

/-- Interpretation of an unsigned 32-bit pattern as a signed 32-bit value. -/
def toS32 (x : Nat) : Int :=
  if x < 2147483648 then (x : Int) else (x : Int) - 4294967296

/-- Wrap of an arbitrary integer into the signed 32-bit range, as a C cast
`(s32)` does on every mainstream implementation (two's complement wrap). -/
def s32wrap (x : Int) : Int := toS32 (x.emod 4294967296).toNat

/-- Low `n` bytes of a two's-complement integer, least significant byte first,
as C produces them with `(u8)(x >> 8*i)`. -/
def leBytes (n : Nat) (x : Int) : List Nat :=
  (List.range n).map fun i => u8 (((x.emod 281474976710656).toNat) / 256 ^ i)

/-- Little-endian bytes of a natural number (n bytes). -/
def leBytesN (n : Nat) (x : Nat) : List Nat :=
  (List.range n).map fun i => u8 (x / 256 ^ i)

/-- Kernel error number ERANGE (driver returns `-ERANGE`). -/
def ERANGE_NUM : Int := 34

/-- Kernel error number EOPNOTSUPP (driver returns `-EOPNOTSUPP`). -/
def EOPNOTSUPP_NUM : Int := 95

/-- Kernel error number ETIMEDOUT (what `readx_poll_timeout_atomic` returns on
a poll timeout). -/
def ETIMEDOUT_NUM : Int := 110

/-- Kernel error number EINVAL. -/
def EINVAL_NUM : Int := 22

/-- NSEC_PER_SEC. -/
def NSEC_PER_SEC : Int := 1000000000

/-- PSEC_PER_SEC (used as `scaleSecToPicoSec` in the driver). -/
def PSEC_PER_SEC : Nat := 1000000000000

/-- Register-traffic event.  `wr` records the bytes as stored at the device
(after `zl3073x_swap` reversed the caller's buffer); `rd` records only the
address and length (read data is supplied by environment parameters of the
embedded functions); `poll` records a semaphore poll of `mask` at `addr`
with its outcome (`true` = bit observed clear, `false` = timeout). -/
inductive Ev
  | wr (addr : Nat) (bytes : List Nat)
  | rd (addr : Nat) (len : Nat)
  | poll (addr : Nat) (mask : Nat) (ok : Bool)
  | sleepMs (ms : Nat)
deriving DecidableEq, Repr

/-- Byte reversal done by `zl3073x_swap` before every bulk write. -/
def zl3073x_swap (b : List Nat) : List Nat := b.reverse

/-- Event emitted by `zl3073x_write buf count`: the device receives the
reversed buffer. -/
def wrEv (addr : Nat) (buf : List Nat) : Ev := .wr addr (zl3073x_swap buf)

/-- Whether an event is a register write. -/
def Ev.isWr : Ev → Bool
  | .wr _ _ => true
  | _ => false

/-! ## Synthesizer frequency formula (`_zl3073x_ptp_get_synth_freq`)

The C computation is `*synthFreq = base * mult * numerator / denomitor;`
with `u16 base`, `u32 mult`, `u16 numerator`, `u16 denomitor`.  After the
usual arithmetic conversions every operation is performed in 32-bit unsigned
arithmetic (wrapping modulo 2^32); only the final result is widened to the
`u64` output variable. -/

/-- Effective synthesizer frequency as `_zl3073x_ptp_get_synth_freq` computes
it from the four mailbox fields (C unsigned-int arithmetic). -/
def zl3073x_ptp_get_synth_freq_calc (base mult num denom : Nat) : Nat :=
  u32 (u32 (base * mult) * num) / denom

/-- Register addresses of the synthesizer mailbox. -/
def DPLL_SYNTH_MB_MASK : Nat := 0x682
def DPLL_SYNTH_MB_SEM : Nat := 0x684
def DPLL_SYNTH_MB_SEM_RD : Nat := 2
def DPLL_SYNTH_FREQ_BASE : Nat := 0x686
def DPLL_SYNTH_FREQ_MULT : Nat := 0x688
def DPLL_SYNTH_FREQ_M : Nat := 0x68c
def DPLL_SYNTH_FREQ_N : Nat := 0x68e

/-- Event trace of `_zl3073x_ptp_get_synth_freq` on its success path:
select the synth in the mailbox mask register, request a read, poll the
semaphore, then read the four frequency fields. -/
def synthFreqTrace (synth : Nat) : List Ev :=
  [wrEv DPLL_SYNTH_MB_MASK [2 ^ synth % 256, 0],
   wrEv DPLL_SYNTH_MB_SEM [DPLL_SYNTH_MB_SEM_RD],
   .poll DPLL_SYNTH_MB_SEM DPLL_SYNTH_MB_SEM_RD true,
   .rd DPLL_SYNTH_FREQ_BASE 2,
   .rd DPLL_SYNTH_FREQ_MULT 4,
   .rd DPLL_SYNTH_FREQ_M 2,
   .rd DPLL_SYNTH_FREQ_N 2]

/-! ## Input reference frequency lookup (`zl3073x_dpll_set_input_frequency`
and `zl3073x_dpll_get_input_frequency`) -/

/-- The nine supported discrete input frequencies. -/
def inputFreqTable : List Nat :=
  [1, 25, 100, 1000, 10000000, 25000000, 62500000, 78125000, 100000000]

/-- Lookup table of `zl3073x_dpll_set_input_frequency`: maps a supported
frequency to the (baseFreq, multiplier, numerator, denominator) quadruple the
driver writes; unsupported frequencies yield `none` (`-EOPNOTSUPP`). -/
def inputFreqEncode (f : Nat) : Option (Nat × Nat × Nat × Nat) :=
  if f = 1 then some (0x0001, 0x0001, 0x0001, 0x0001)
  else if f = 25 then some (0x0001, 0x0019, 0x0001, 0x0001)
  else if f = 100 then some (0x0001, 0x0064, 0x0001, 0x0001)
  else if f = 1000 then some (0x0001, 0x03E8, 0x0001, 0x0001)
  else if f = 10000000 then some (0x2710, 0x03E8, 0x0001, 0x0001)
  else if f = 25000000 then some (0x61A8, 0x03E8, 0x0001, 0x0001)
  else if f = 62500000 then some (0x4E20, 0x0C35, 0x0001, 0x0001)
  else if f = 78125000 then some (0x1E848, 0x0271, 0x0001, 0x0001)
  else if f = 100000000 then some (0x4E20, 0x1388, 0x0001, 0x0001)
  else none

/-- Bytes stored at the device for one 16-bit mailbox field: the driver
builds `buf[0] = (u8)(x >> 0); buf[1] = (u8)(x >> 8)` and `zl3073x_write`
reverses the buffer, so the device holds `(u8)(x >> 8)` at the low address. -/
def regStore16 (x : Nat) : List Nat := [u8 (x / 256), u8 x]

/-- Reconstruction done by `zl3073x_dpll_get_input_frequency`:
`(buf[0] << 8) | buf[1]` over the raw device-order bytes. -/
def regLoad16 (b : List Nat) : Nat := b.getD 0 0 * 256 + b.getD 1 0

/-- Decode step of `zl3073x_dpll_get_input_frequency`: compute
`baseFreq * multiplier * numerator / denominator` (u32 arithmetic) and map
the result back through the frequency switch; an unlisted value returns
`-EOPNOTSUPP`. -/
def zl3073x_dpll_get_input_frequency (base mult num denom : Nat) : Except Int Nat :=
  let inputFreq := u32 (u32 (base * mult) * num) / denom
  if inputFreq = 1 then .ok 1
  else if inputFreq = 25 then .ok 25
  else if inputFreq = 100 then .ok 100
  else if inputFreq = 1000 then .ok 1000
  else if inputFreq = 10000000 then .ok 10000000
  else if inputFreq = 25000000 then .ok 25000000
  else if inputFreq = 62500000 then .ok 62500000
  else if inputFreq = 78125000 then .ok 78125000
  else if inputFreq = 100000000 then .ok 100000000
  else .error (-EOPNOTSUPP_NUM)

/-- Round trip of claim C1: encode `f` with `zl3073x_dpll_set_input_frequency`,
store each 16-bit field in its 2-byte register (through the driver's
little-endian buffer build plus the transport byte swap), read the registers
back and decode with `zl3073x_dpll_get_input_frequency`. -/
def inputFreqRoundTrip (f : Nat) : Except Int Nat :=
  match inputFreqEncode f with
  | none => .error (-EOPNOTSUPP_NUM)
  | some (b, m, n, d) =>
      zl3073x_dpll_get_input_frequency
        (regLoad16 (regStore16 b)) (regLoad16 (regStore16 m))
        (regLoad16 (regStore16 n)) (regLoad16 (regStore16 d))

/-! ## Output phase compensation (`zl3073x_dpll_set_output_phase_adjust`,
`zl3073x_dpll_get_output_phase_adjust`) -/

/-- Output mailbox register addresses. -/
def DPLL_OUTPUT_MB_MASK : Nat := 0x702
def DPLL_OUTPUT_MB_SEM : Nat := 0x704
def DPLL_OUTPUT_MB_SEM_RD : Nat := 2
def DPLL_OUTPUT_MB_SEM_WR : Nat := 1
def DPLL_OUTPUT_PHASE_COMPENSATION_REG : Nat := 0x720
def DPLL_OUTPUT_CTRL (index : Nat) : Nat := 0x4a8 + index

/-- The half-synthesizer-cycle unit in picoseconds, as both variants compute
it: `div_u64(PSEC_PER_SEC, freq * 2)` truncated to `int`. -/
def halfSynthCycleOf (freq : Nat) : Int := (PSEC_PER_SEC / (freq * 2) : Nat)

/-- Result of an embedded driver operation: its C return value plus the
register traffic it generated, in program order. -/
structure OpResult where
  ret : Int
  events : List Ev
deriving DecidableEq, Repr

/-- Embedding of `zl3073x_dpll_set_output_phase_adjust` (first variant,
which takes the requested offset `v` as `s32 phaseOffsetComp32`).

The function first resolves the synthesizer driving the output
(`zl3073x_synth_get`, one register read) and its effective frequency
(`_zl3073x_ptp_get_synth_freq`, a full mailbox read transaction); `freq` is
the frequency those reads produce and `outputCtrlByte` the output-control
byte read.  It then evaluates `(halfSynthCycle % phaseOffsetComp32) != 0`
(note the operand order in the source) and returns `-ERANGE` when the
remainder is non-zero; otherwise it divides the offset by the unit, negates
it (`~x + 1`), writes the mailbox mask, the 4-byte compensation register and
the write-semaphore request, polls the semaphore (`finalPollOk` is that
poll's outcome) and falls through to `return 0` regardless of the poll
result.  `v = 0` is excluded from every theorem below: the source divides by
`phaseOffsetComp32` there, which is undefined behaviour in C. -/
def zl3073x_dpll_set_output_phase_adjust (freq : Nat) (outputCtrlByte : Nat)
    (outputIndex : Nat) (finalPollOk : Bool) (v : Int) : OpResult :=
  let halfSynthCycle := halfSynthCycleOf freq
  let synth := outputCtrlByte / 16 % 8
  let preEvents := .rd (DPLL_OUTPUT_CTRL outputIndex) 1 :: synthFreqTrace synth
  if halfSynthCycle.tmod v ≠ 0 then
    { ret := -ERANGE_NUM, events := preEvents }
  else
    let steps := v.tdiv halfSynthCycle
    let reg := s32wrap (-steps)
    { ret := 0,
      events := preEvents ++
        [wrEv DPLL_OUTPUT_MB_MASK [2 ^ (outputIndex / 2) % 256, 0],
         wrEv DPLL_OUTPUT_PHASE_COMPENSATION_REG (leBytes 4 reg),
         wrEv DPLL_OUTPUT_MB_SEM [DPLL_OUTPUT_MB_SEM_WR],
         .poll DPLL_OUTPUT_MB_SEM DPLL_OUTPUT_MB_SEM_WR finalPollOk] }

/-- Embedding of the second variant of `zl3073x_dpll_set_output_phase_adjust`
(the copy whose synth helpers return values directly).  Its control flow
differs from the first variant in that the `-ERANGE` branch also jumps to the
common exit, so the function returns 0 on that path as well; like the first
variant it ends in an unconditional `return 0`, so a final-poll timeout is
also not reported. -/
def zl3073x_dpll_set_output_phase_adjust_v2 (freq : Nat) (outputCtrlByte : Nat)
    (outputIndex : Nat) (finalPollOk : Bool) (v : Int) : OpResult :=
  let halfSynthCycle := halfSynthCycleOf freq
  let synth := outputCtrlByte / 16 % 8
  let preEvents := .rd (DPLL_OUTPUT_CTRL outputIndex) 1 :: synthFreqTrace synth
  if halfSynthCycle.tmod v ≠ 0 then
    { ret := 0, events := preEvents }
  else
    let steps := v.tdiv halfSynthCycle
    let reg := s32wrap (-steps)
    { ret := 0,
      events := preEvents ++
        [wrEv DPLL_OUTPUT_MB_MASK [2 ^ (outputIndex / 2) % 256, 0],
         wrEv DPLL_OUTPUT_PHASE_COMPENSATION_REG (leBytes 4 reg),
         wrEv DPLL_OUTPUT_MB_SEM [DPLL_OUTPUT_MB_SEM_WR],
         .poll DPLL_OUTPUT_MB_SEM DPLL_OUTPUT_MB_SEM_WR finalPollOk] }

/-- Decode step of `zl3073x_dpll_get_output_phase_adjust`: reconstruct the
signed 32-bit register value from the four device bytes, and when it is
non-zero multiply by the half-cycle unit and undo the negation
(`*phaseAdj = ~x + 1`); when the register reads zero the output parameter is
left untouched (modelled as `none`). -/
def zl3073x_dpll_get_output_phase_adjust_calc (freq : Nat) (b0 b1 b2 b3 : Nat) :
    Option Int :=
  let halfSynthCycle := halfSynthCycleOf freq
  let reg := toS32 (u32 (b0 * 16777216 + b1 * 65536 + b2 * 256 + b3))
  if reg ≠ 0 then some (s32wrap (-(s32wrap (reg * halfSynthCycle)))) else none

/-! ## Reference priority (`DPLL_REF_PRIORITY_*` macros and
`zl3073x_dpll_set_priority_ref`) -/

/-- DPLL mailbox register addresses. -/
def DPLL_DPLL_MB_MASK : Nat := 0x602
def DPLL_DPLL_MB_SEM : Nat := 0x604
def DPLL_DPLL_MB_SEM_RD : Nat := 2
def DPLL_DPLL_MB_SEM_WR : Nat := 1

/-- Address of the packed priority byte for a reference:
`0x652 + (refId / 2)`. -/
def DPLL_REF_PRIORITY (refId : Nat) : Nat := 0x652 + refId / 2

/-- Macro `DPLL_REF_PRIORITY_SET_LOWER`: keep the upper nibble of `data`,
replace the lower nibble with `value`. -/
def DPLL_REF_PRIORITY_SET_LOWER (data value : Nat) : Nat :=
  (data &&& 0xF0) ||| (value &&& 0xF)

/-- Macro `DPLL_REF_PRIORITY_SET_UPPER`: keep the lower nibble of `data`,
replace the upper nibble with `value`. -/
def DPLL_REF_PRIORITY_SET_UPPER (data value : Nat) : Nat :=
  (data &&& 0xF) ||| ((value &&& 0xF) * 16)

/-- Macro `DPLL_REF_PRIORITY_SET`: even references use the lower nibble,
odd references the upper nibble. -/
def DPLL_REF_PRIORITY_SET (data refId value : Nat) : Nat :=
  if refId % 2 = 0 then DPLL_REF_PRIORITY_SET_LOWER data value
  else DPLL_REF_PRIORITY_SET_UPPER data value

/-- Embedding of `zl3073x_dpll_set_priority_ref`: select the DPLL in the DPLL
mailbox, request a read, poll, read the current packed priority byte
(`current` is the byte that read returns), update one nibble with
`DPLL_REF_PRIORITY_SET`, write the byte back, request a write and poll. -/
def zl3073x_dpll_set_priority_ref (current : Nat) (dpll_index refId value : Nat) :
    OpResult :=
  let updated := u8 (DPLL_REF_PRIORITY_SET current refId value)
  { ret := 0,
    events :=
      [wrEv DPLL_DPLL_MB_MASK [2 ^ dpll_index % 256, 0],
       wrEv DPLL_DPLL_MB_SEM [DPLL_DPLL_MB_SEM_RD],
       .poll DPLL_DPLL_MB_SEM DPLL_DPLL_MB_SEM_RD true,
       .rd (DPLL_REF_PRIORITY refId) 1,
       wrEv (DPLL_REF_PRIORITY refId) [updated],
       wrEv DPLL_DPLL_MB_SEM [DPLL_DPLL_MB_SEM_WR],
       .poll DPLL_DPLL_MB_SEM DPLL_DPLL_MB_SEM_WR true] }

/-! ## Frequency adjustment (`zl3073x_ptp_adjfine`) -/

/-- Scale constant for one ppm in device offset units. -/
def ZL3073X_1PPM_FORMAT : Int := 281474976

/-- Per-DPLL digital frequency offset register. -/
def DPLL_DF_OFFSET (index : Nat) : Nat := 0x300 + index * 0x20

/-- Embedding of `zl3073x_ptp_adjfine`.  A zero `scaled_ppm` returns 0 before
the lock is taken and before any register access.  Otherwise the driver
scales the 16.16 fixed-point ppm value (`>> 16` on a signed value is an
arithmetic shift, i.e. floor division), negates it (`~ref + 1`) and writes
the low 6 bytes to the per-DPLL digital-frequency-offset register. -/
def zl3073x_ptp_adjfine (index : Nat) (scaled_ppm : Int) : OpResult :=
  if scaled_ppm = 0 then { ret := 0, events := [] }
  else
    let ref0 := ZL3073X_1PPM_FORMAT * (scaled_ppm.fdiv 65536) +
      (ZL3073X_1PPM_FORMAT * (scaled_ppm.emod 65536)).fdiv 65536
    let ref := -ref0
    { ret := 0, events := [wrEv (DPLL_DF_OFFSET index) (leBytes 6 ref)] }

/-! ## ToD protocol, second rollover, phase step and `zl3073x_ptp_adjtime` -/

/-- ToD register addresses (per DPLL index). -/
def DPLL_TOD_CTRL (index : Nat) : Nat := 0x2b8 + index
def DPLL_TOD_CTRL_SEM : Nat := 16
def DPLL_TOD_SEC (index : Nat) : Nat := 0x312 + index * 0x20
def DPLL_TOD_NSEC (index : Nat) : Nat := 0x318 + index * 0x20

/-- ToD command codes. -/
def ZL3073X_TOD_CTRL_CMD_WRITE_NEXT_1HZ : Nat := 1
def ZL3073X_TOD_CTRL_CMD_READ : Nat := 8
def ZL3073X_TOD_CTRL_CMD_READ_NEXT_1HZ : Nat := 9

/-- Phase-step register addresses. -/
def DPLL_OUTPUT_PHASE_STEP_CTRL : Nat := 0x4b8
def DPLL_OUTPUT_PHASE_STEP_CTRL_OP_MASK : Nat := 3
def DPLL_OUTPUT_PHASE_STEP_NUMBER : Nat := 0x4b9
def DPLL_OUTPUT_PHASE_STEP_MASK_REG : Nat := 0x4ba
def DPLL_OUTPUT_PHASE_STEP_DATA : Nat := 0x4bc

/-- Normalization of a (seconds, nanoseconds) pair as the kernel helper
`set_normalized_timespec64` does (modelled from its documented semantics:
carry whole seconds out of the nanosecond field until 0 ≤ nsec < 10^9). -/
def setNormalizedTimespec64 (sec nsec : Int) : Int × Int :=
  (sec + nsec.fdiv 1000000000, nsec.emod 1000000000)

/-- Kernel helper `ns_to_timespec64` (modelled from its documented semantics:
split signed nanoseconds into seconds and a non-negative remainder). -/
def ns_to_timespec64 (ns : Int) : Int × Int :=
  (ns.fdiv 1000000000, ns.emod 1000000000)

/-- Kernel helper `timespec64_add` (modelled from its documented semantics:
componentwise addition followed by normalization). -/
def timespec64_add (a b : Int × Int) : Int × Int :=
  setNormalizedTimespec64 (a.1 + b.1) (a.2 + b.2)

/-- Event trace of `_zl3073x_ptp_gettime64` on its success path: poll the ToD
semaphore, issue `SEM | cmd`, poll again, read seconds then nanoseconds. -/
def gettimeTrace (index cmd : Nat) : List Ev :=
  [.poll (DPLL_TOD_CTRL index) DPLL_TOD_CTRL_SEM true,
   wrEv (DPLL_TOD_CTRL index) [DPLL_TOD_CTRL_SEM ||| cmd],
   .poll (DPLL_TOD_CTRL index) DPLL_TOD_CTRL_SEM true,
   .rd (DPLL_TOD_SEC index) 6,
   .rd (DPLL_TOD_NSEC index) 6]

/-- Timestamp decode of `_zl3073x_ptp_gettime64`
(`zl3073x_ptp_bytearray_to_timestamp`): assemble the 48-bit seconds and
32-bit nanoseconds fields and normalize, carrying nanosecond overflow into
seconds. -/
def gettimeValue (secRaw nsecRaw : Nat) : Int × Int :=
  setNormalizedTimespec64 (secRaw : Int) (nsecRaw : Int)

/-- Event trace of `_zl3073x_ptp_settime64` on its success path: poll the ToD
semaphore, write the 6 seconds bytes and 6 nanoseconds bytes (via
`zl3073x_ptp_timestamp_to_bytearray`, little-endian in the caller's buffer),
then write `SEM | cmd` to the control register. -/
def settimeTrace (index : Nat) (ts : Int × Int) (cmd : Nat) : List Ev :=
  [.poll (DPLL_TOD_CTRL index) DPLL_TOD_CTRL_SEM true,
   wrEv (DPLL_TOD_SEC index) (leBytes 6 ts.1),
   wrEv (DPLL_TOD_NSEC index) (leBytes 6 ts.2),
   wrEv (DPLL_TOD_CTRL index) [DPLL_TOD_CTRL_SEM ||| cmd]]

/-- Embedding of the retry loop of `zl3073x_ptp_wait_sec_rollover`, indexed
by fuel.  `secAt i` is the seconds value the i-th predicted read returns
(semaphore polls and transport are assumed to succeed — one legitimate
hardware behaviour).  The C loop keeps the first non-zero seconds value as
`init_ts` and breaks only when a later read is strictly larger; otherwise it
sleeps 10 ms and retries with no iteration bound.  The result is the event
trace so far together with `some ret` when the C code would return within
`fuel` iterations, `none` when it is still looping. -/
def waitSecRolloverAux (secAt : Nat → Nat) (index : Nat) :
    Nat → Nat → Nat → List Ev × Option Int
  | _, _, 0 => ([], none)
  | initSec, i, fuel + 1 =>
      let iterEvs := Ev.poll (DPLL_TOD_CTRL index) DPLL_TOD_CTRL_SEM true ::
        gettimeTrace index ZL3073X_TOD_CTRL_CMD_READ_NEXT_1HZ
      let ts := secAt i
      if initSec = 0 then
        let r := waitSecRolloverAux secAt index ts (i + 1) fuel
        (iterEvs ++ Ev.sleepMs 10 :: r.1, r.2)
      else if initSec < ts then (iterEvs, some 0)
      else
        let r := waitSecRolloverAux secAt index initSec (i + 1) fuel
        (iterEvs ++ Ev.sleepMs 10 :: r.1, r.2)

/-- Entry point of the rollover wait: `init_ts` starts at zero. -/
def zl3073x_ptp_wait_sec_rollover (secAt : Nat → Nat) (index fuel : Nat) :
    List Ev × Option Int :=
  waitSecRolloverAux secAt index 0 0 fuel

/-- Embedding of `_zl3073x_ptp_steptime` on its success path: wait for the
previous phase-step command to go idle, write step count 1, read the output
control byte of the first periodic output (`__ffs(perout_mask)`), run the
synthesizer mailbox read, convert the delta to synthesizer half cycles with
`(s32)div_s64(delta * synthFreq, NSEC_PER_SEC)`, write step data, the output
mask and finally the control byte (DPLL index, write opcode, ToD-step
flag). -/
def zl3073x_ptp_steptime (index perout_mask outputCtrlByte : Nat)
    (sf : Nat × Nat × Nat × Nat) (delta : Int) : List Ev :=
  let ffs := ((List.range 16).find? fun i => perout_mask / 2 ^ i % 2 = 1).getD 0
  let synth := outputCtrlByte / 16 % 8
  let freq := zl3073x_ptp_get_synth_freq_calc sf.1 sf.2.1 sf.2.2.1 sf.2.2.2
  let register_units := s32wrap ((delta * (freq : Int)).tdiv NSEC_PER_SEC)
  [.poll DPLL_OUTPUT_PHASE_STEP_CTRL DPLL_OUTPUT_PHASE_STEP_CTRL_OP_MASK true,
   wrEv DPLL_OUTPUT_PHASE_STEP_NUMBER [1],
   .rd (DPLL_OUTPUT_CTRL ffs) 1] ++
  synthFreqTrace synth ++
  [wrEv DPLL_OUTPUT_PHASE_STEP_DATA (leBytes 4 register_units),
   wrEv DPLL_OUTPUT_PHASE_STEP_MASK_REG [u8 perout_mask, 0],
   wrEv DPLL_OUTPUT_PHASE_STEP_CTRL [index * 16 + 11]]

/-- Environment of one `zl3073x_ptp_adjtime` call: the seconds values the
rollover loop reads, the fuel bounding how far that loop is unrolled, the raw
timestamp the predicted read after the rollover returns, and the data the
phase-step path reads (output control byte and synthesizer mailbox fields). -/
structure AdjtimeEnv where
  rollSecAt : Nat → Nat
  rollFuel : Nat
  predSecRaw : Nat
  predNsecRaw : Nat
  perout_mask : Nat
  outputCtrlByte : Nat
  synthFields : Nat × Nat × Nat × Nat

/-- Embedding of `zl3073x_ptp_adjtime` on its success path.  The delta is
split with `div_s64_rem` (truncating).  When `delta >= NSEC_PER_SEC || delta
<= -NSEC_PER_SEC` the driver waits for a second rollover, reads the predicted
next-second time, adds the whole-second part of the delta and writes it back
effective at the next second, polls the ToD semaphore, and only then applies
the sub-second remainder with the phase-step mechanism; otherwise it applies
the whole delta via the phase step directly.  `none` models the case where
the rollover loop is still running after `rollFuel` iterations (the C loop
has no iteration bound). -/
def zl3073x_ptp_adjtime (env : AdjtimeEnv) (index : Nat) (delta : Int) :
    Option OpResult :=
  let delta_sec := delta.tdiv NSEC_PER_SEC
  let delta_sec_in_ns := delta_sec * NSEC_PER_SEC
  let delta_sub_sec_in_ns := delta.tmod NSEC_PER_SEC
  if delta ≥ NSEC_PER_SEC ∨ delta ≤ -NSEC_PER_SEC then
    match zl3073x_ptp_wait_sec_rollover env.rollSecAt index env.rollFuel with
    | (_, none) => none
    | (rollEvs, some _) =>
        let ts := gettimeValue env.predSecRaw env.predNsecRaw
        let ts' := timespec64_add ts (ns_to_timespec64 delta_sec_in_ns)
        some
          { ret := 0,
            events := rollEvs ++
              gettimeTrace index ZL3073X_TOD_CTRL_CMD_READ_NEXT_1HZ ++
              settimeTrace index ts' ZL3073X_TOD_CTRL_CMD_WRITE_NEXT_1HZ ++
              [.poll (DPLL_TOD_CTRL index) DPLL_TOD_CTRL_SEM true] ++
              zl3073x_ptp_steptime index env.perout_mask env.outputCtrlByte
                env.synthFields delta_sub_sec_in_ns }
  else
    some
      { ret := 0,
        events := zl3073x_ptp_steptime index env.perout_mask env.outputCtrlByte
          env.synthFields delta_sub_sec_in_ns }

/-! ## Periodic output enable (`zl3073x_ptp_enable`,
`zl3073x_ptp_perout_enable`) -/

/-- Further output mailbox registers used by the periodic-output path. -/
def DPLL_OUTPUT_MODE : Nat := 0x705
def DPLL_OUTPUT_GPO_EN : Nat := 0x724
def DPLL_OUTPUT_DIV : Nat := 0x70c
def DPLL_OUTPUT_WIDTH : Nat := 0x710

/-- Signal-format values of `enum zl3073x_output_mode_signal_format_t`. -/
def ZL3073X_BOTH_DISABLED : Nat := 0x0
def ZL3073X_BOTH_ENABLED : Nat := 0x4
def ZL3073X_P_ENABLE : Nat := 0x5
def ZL3073X_N_ENABLE : Nat := 0x6

/-- `_zl3073x_ptp_enable_pin`: next signal format when enabling `pin` given
the current format (every case not explicitly handled falls through to
`ZL3073X_BOTH_ENABLED`). -/
def zl3073x_ptp_enable_pin_calc (current_mode pin : Nat) : Nat :=
  if current_mode = ZL3073X_BOTH_DISABLED then
    if pin % 2 = 0 then ZL3073X_P_ENABLE else ZL3073X_N_ENABLE
  else ZL3073X_BOTH_ENABLED

/-- A periodic-output request (`struct ptp_perout_request`): start time,
period, the `PTP_PEROUT_DUTY_CYCLE` flag and the on-time. -/
structure PeroutRequest where
  start_sec : Nat
  start_nsec : Nat
  period_sec : Nat
  period_nsec : Nat
  dutyFlag : Bool
  on_sec : Nat
  on_nsec : Nat

/-- Environment of `zl3073x_ptp_perout_enable`: the pin resolved by
`ptp_find_pin` (−1 when not found), the output-mode byte read from the
mailbox, the output control byte and the synthesizer mailbox fields. -/
structure PeroutEnv where
  pin : Int
  modeByte : Nat
  outputCtrlByte : Nat
  synthFields : Nat × Nat × Nat × Nat

/-- Embedding of `zl3073x_ptp_perout_enable` on the path where transport and
polls succeed: validate the pin, then through the output mailbox read and
update the signal format, force the pin to clock (GPO off), program the
output divider with the synthesizer frequency, optionally program the pulse
width when the duty-cycle flag is set (rejecting a non-zero on-time seconds
part), and commit with a mailbox write. -/
def zl3073x_ptp_perout_enable (env : PeroutEnv) (rq : PeroutRequest) : OpResult :=
  if env.pin = -1 ∨ env.pin ≥ 20 then { ret := -EINVAL_NUM, events := [] }
  else
    let pin := env.pin.toNat
    let mode := env.modeByte / 16 % 16
    let newModeByte := env.modeByte % 16 + zl3073x_ptp_enable_pin_calc mode pin * 16
    let synth := env.outputCtrlByte / 16 % 8
    let freq := zl3073x_ptp_get_synth_freq_calc env.synthFields.1
      env.synthFields.2.1 env.synthFields.2.2.1 env.synthFields.2.2.2
    let evs1 :=
      [wrEv DPLL_OUTPUT_MB_MASK [2 ^ (pin / 2) % 256, 0],
       wrEv DPLL_OUTPUT_MB_SEM [DPLL_OUTPUT_MB_SEM_RD],
       .poll DPLL_OUTPUT_MB_SEM DPLL_OUTPUT_MB_SEM_RD true,
       .rd DPLL_OUTPUT_MODE 1,
       wrEv DPLL_OUTPUT_MODE [newModeByte],
       wrEv DPLL_OUTPUT_GPO_EN [0],
       .rd (DPLL_OUTPUT_CTRL (pin / 2)) 1] ++
      synthFreqTrace synth ++
      [wrEv DPLL_OUTPUT_DIV (leBytesN 4 (u32 freq))]
    if rq.dutyFlag ∧ rq.on_sec ≠ 0 then { ret := -EINVAL_NUM, events := evs1 }
    else
      let dutyEvs :=
        if rq.dutyFlag then
          let width0 := u32 ((1000000000 : Nat) / rq.on_nsec)
          let width1 := u32 freq / width0
          let width := u32 (width1 * 2)
          [wrEv DPLL_OUTPUT_WIDTH (leBytesN 4 width)]
        else []
      { ret := 0,
        events := evs1 ++ dutyEvs ++
          [wrEv DPLL_OUTPUT_MB_SEM [DPLL_OUTPUT_MB_SEM_WR],
           .poll DPLL_OUTPUT_MB_SEM DPLL_OUTPUT_MB_SEM_WR true] }

/-- Embedding of the `PTP_CLK_REQ_PEROUT` branch of `zl3073x_ptp_enable` for
`on != 0`: the request is rejected with `-ERANGE` before any register access
unless the start nanoseconds are zero, the period is exactly one second and
the sub-second period is zero; an accepted request is handed to
`zl3073x_ptp_perout_enable`. -/
def zl3073x_ptp_enable_on (env : PeroutEnv) (rq : PeroutRequest) : OpResult :=
  if rq.start_nsec ≠ 0 ∨ rq.period_sec ≠ 1 ∨ rq.period_nsec ≠ 0 then
    { ret := -ERANGE_NUM, events := [] }
  else zl3073x_ptp_perout_enable env rq

/-! ## Derived trace observations -/

/-- The write events of a trace that target a given register address. -/
def writesTo (addr : Nat) (evs : List Ev) : List Ev :=
  evs.filter fun e => match e with
    | .wr a _ => a == addr
    | _ => false

/-- The write events of a trace that target the ToD registers (seconds,
nanoseconds or control) of the given DPLL. -/
def todWriteEvents (index : Nat) (evs : List Ev) : List Ev :=
  evs.filter fun e => match e with
    | .wr a _ =>
        a == DPLL_TOD_SEC index || a == DPLL_TOD_NSEC index ||
          a == DPLL_TOD_CTRL index
    | _ => false

/-! ## Theorems for the claims -/

/-- C10: calling `zl3073x_ptp_adjfine` with `scaled_ppm == 0` returns success
immediately and performs no register access at all; the digital-frequency-
offset register is not written. -/
theorem C10_adjfine_zero_no_access (index : Nat) :
    zl3073x_ptp_adjfine index 0 = { ret := 0, events := [] } := rfl

/-- C4 counterexample: the tuple base = 65535, mult = 65538, num = 1,
denom = 1 is representable in the synthesizer mailbox registers, but the
driver computes 65534 (the product wrapped modulo 2^32), not the value
65535 × 65538 = 4295032830 that 64-bit arithmetic would give, so the
frequency is not computed in 64-bit arithmetic free of overflow. -/
theorem C4_counterexample_overflow :
    zl3073x_ptp_get_synth_freq_calc 65535 65538 1 1 ≠ 65535 * 65538 * 1 / 1 := by
  decide

/-- C4 (amended): `_zl3073x_ptp_get_synth_freq` computes
`base * mult * numerator` in 32-bit unsigned arithmetic, i.e. the product
wrapped modulo 2^32, before the final division; the scenario
base = 0x4E20, mult = 0x1388, num = 1, denom = 1 yields 100000000 Hz. -/
theorem C4_synth_freq_u32_formula :
    (∀ base mult num denom : Nat,
        zl3073x_ptp_get_synth_freq_calc base mult num denom =
          base * mult * num % 4294967296 / denom) ∧
    zl3073x_ptp_get_synth_freq_calc 0x4E20 0x1388 1 1 = 100000000 := by
  refine ⟨fun base mult num denom => ?_, by decide⟩
  simp [zl3073x_ptp_get_synth_freq_calc, u32, Nat.mod_mul_mod]

/-- C1: evaluating the input-frequency round trip at every entry of the
lookup table.  Eight of the nine supported frequencies decode back to
themselves, but 78.125 MHz does not: its base value 0x1E848 needs 17 bits,
the 2-byte base register keeps only 0xE848, so the decode computes
59464 × 625 = 37165000, which is not in the table, and the get function
returns `-EOPNOTSUPP` instead of 78125000. -/
theorem C1_input_freq_roundtrip_eval :
    inputFreqRoundTrip 1 = .ok 1 ∧
    inputFreqRoundTrip 25 = .ok 25 ∧
    inputFreqRoundTrip 100 = .ok 100 ∧
    inputFreqRoundTrip 1000 = .ok 1000 ∧
    inputFreqRoundTrip 10000000 = .ok 10000000 ∧
    inputFreqRoundTrip 25000000 = .ok 25000000 ∧
    inputFreqRoundTrip 62500000 = .ok 62500000 ∧
    inputFreqRoundTrip 100000000 = .ok 100000000 ∧
    inputFreqRoundTrip 78125000 = .error (-EOPNOTSUPP_NUM) :=
  ⟨rfl, rfl, rfl, rfl, rfl, rfl, rfl, rfl, rfl⟩

/-- C2: evaluating `zl3073x_dpll_set_output_phase_adjust` (first variant)
with a 100 MHz synthesizer, for which the half-cycle unit is 5000 ps.  The
divisibility check in the source is `halfSynthCycle % phaseOffsetComp32`,
with the operands in that order, so the value 10000 — an exact multiple of
the unit, which per the claim must round-trip — is rejected with `-ERANGE`,
while the value 1 — not a multiple, which per the claim must be rejected
without a write — passes the check and the compensation register is
written. -/
theorem C2_output_phase_adjust_check_reversed :
    (zl3073x_dpll_set_output_phase_adjust 100000000 0 0 true 10000).ret =
      -ERANGE_NUM ∧
    writesTo DPLL_OUTPUT_PHASE_COMPENSATION_REG
      (zl3073x_dpll_set_output_phase_adjust 100000000 0 0 true 10000).events = [] ∧
    (zl3073x_dpll_set_output_phase_adjust 100000000 0 0 true 1).ret = 0 ∧
    writesTo DPLL_OUTPUT_PHASE_COMPENSATION_REG
      (zl3073x_dpll_set_output_phase_adjust 100000000 0 0 true 1).events ≠ [] := by
  decide

/-- C3: both variants of `zl3073x_dpll_set_output_phase_adjust` end in an
unconditional `return 0`, so when the final write-semaphore poll times out
(poll outcome `false`) the caller still receives success instead of the
timeout error; the input 5000 passes the divisibility check at a 100 MHz
synthesizer and reaches the final poll. -/
theorem C3_set_output_phase_adjust_swallows_timeout :
    (zl3073x_dpll_set_output_phase_adjust 100000000 0 0 false 5000).ret = 0 ∧
    Ev.poll DPLL_OUTPUT_MB_SEM DPLL_OUTPUT_MB_SEM_WR false ∈
      (zl3073x_dpll_set_output_phase_adjust 100000000 0 0 false 5000).events ∧
    (zl3073x_dpll_set_output_phase_adjust_v2 100000000 0 0 false 5000).ret = 0 ∧
    Ev.poll DPLL_OUTPUT_MB_SEM DPLL_OUTPUT_MB_SEM_WR false ∈
      (zl3073x_dpll_set_output_phase_adjust_v2 100000000 0 0 false 5000).events := by
  decide

set_option maxRecDepth 8192 in
/-- Nibble arithmetic of the lower-nibble update, checked over all byte and
nibble values. -/
theorem set_lower_nibble_spec :
    ∀ c < 256, ∀ v < 16,
      DPLL_REF_PRIORITY_SET_LOWER c v < 256 ∧
      DPLL_REF_PRIORITY_SET_LOWER c v / 16 = c / 16 ∧
      DPLL_REF_PRIORITY_SET_LOWER c v % 16 = v := by
  decide

set_option maxRecDepth 8192 in
/-- Nibble arithmetic of the upper-nibble update, checked over all byte and
nibble values. -/
theorem set_upper_nibble_spec :
    ∀ c < 256, ∀ v < 16,
      DPLL_REF_PRIORITY_SET_UPPER c v < 256 ∧
      DPLL_REF_PRIORITY_SET_UPPER c v % 16 = c % 16 ∧
      DPLL_REF_PRIORITY_SET_UPPER c v / 16 = v := by
  decide

/-- C8: `zl3073x_dpll_set_priority_ref` is a read-modify-write: it reads the
packed priority byte and writes back `DPLL_REF_PRIORITY_SET current refId
value`, which for an even reference replaces exactly the lower nibble (the
upper nibble — the odd reference's priority — is preserved) and for an odd
reference replaces exactly the upper nibble; in particular the packed byte
0xAB with reference 0 set to priority 0xC becomes 0xAC. -/
theorem C8_priority_rmw_preserves_other_nibble (current refId value dpll_index : Nat)
    (hc : current < 256) (hv : value < 16) :
    (zl3073x_dpll_set_priority_ref current dpll_index refId value).events =
      [wrEv DPLL_DPLL_MB_MASK [2 ^ dpll_index % 256, 0],
       wrEv DPLL_DPLL_MB_SEM [DPLL_DPLL_MB_SEM_RD],
       .poll DPLL_DPLL_MB_SEM DPLL_DPLL_MB_SEM_RD true,
       .rd (DPLL_REF_PRIORITY refId) 1,
       wrEv (DPLL_REF_PRIORITY refId) [u8 (DPLL_REF_PRIORITY_SET current refId value)],
       wrEv DPLL_DPLL_MB_SEM [DPLL_DPLL_MB_SEM_WR],
       .poll DPLL_DPLL_MB_SEM DPLL_DPLL_MB_SEM_WR true] ∧
    (refId % 2 = 0 →
      u8 (DPLL_REF_PRIORITY_SET current refId value) / 16 = current / 16 ∧
      u8 (DPLL_REF_PRIORITY_SET current refId value) % 16 = value) ∧
    (refId % 2 = 1 →
      u8 (DPLL_REF_PRIORITY_SET current refId value) % 16 = current % 16 ∧
      u8 (DPLL_REF_PRIORITY_SET current refId value) / 16 = value) ∧
    u8 (DPLL_REF_PRIORITY_SET 0xAB 0 0xC) = 0xAC := by
  refine ⟨rfl, ?_, ?_, by decide⟩
  · intro heven
    have h := set_lower_nibble_spec current hc value hv
    have hset : DPLL_REF_PRIORITY_SET current refId value =
        DPLL_REF_PRIORITY_SET_LOWER current value := by
      simp [DPLL_REF_PRIORITY_SET, heven]
    rw [hset, u8, Nat.mod_eq_of_lt h.1]
    exact ⟨h.2.1, h.2.2⟩
  · intro hodd
    have h := set_upper_nibble_spec current hc value hv
    have hset : DPLL_REF_PRIORITY_SET current refId value =
        DPLL_REF_PRIORITY_SET_UPPER current value := by
      simp [DPLL_REF_PRIORITY_SET, hodd]
    rw [hset, u8, Nat.mod_eq_of_lt h.1]
    exact ⟨h.2.1, h.2.2⟩

/-- Witness for C8 at the concrete claim scenario: current byte 0xAB,
reference 0, new priority 0xC. -/
theorem C8_priority_rmw_witness :
    (zl3073x_dpll_set_priority_ref 0xAB 0 0 0xC).events =
      [wrEv DPLL_DPLL_MB_MASK [1, 0],
       wrEv DPLL_DPLL_MB_SEM [DPLL_DPLL_MB_SEM_RD],
       .poll DPLL_DPLL_MB_SEM DPLL_DPLL_MB_SEM_RD true,
       .rd (DPLL_REF_PRIORITY 0) 1,
       wrEv (DPLL_REF_PRIORITY 0) [u8 (DPLL_REF_PRIORITY_SET 0xAB 0 0xC)],
       wrEv DPLL_DPLL_MB_SEM [DPLL_DPLL_MB_SEM_WR],
       .poll DPLL_DPLL_MB_SEM DPLL_DPLL_MB_SEM_WR true] ∧
    u8 (DPLL_REF_PRIORITY_SET 0xAB 0 0xC) / 16 = 0xAB / 16 ∧
    u8 (DPLL_REF_PRIORITY_SET 0xAB 0 0xC) % 16 = 0xC := by
  have h := C8_priority_rmw_preserves_other_nibble 0xAB 0 0xC 0 (by decide) (by decide)
  exact ⟨h.1, (h.2.1 rfl).1, (h.2.1 rfl).2⟩

/-- With a seconds oracle that is constant, the rollover loop of
`zl3073x_ptp_wait_sec_rollover` never breaks: after any number of
iterations it is still running. -/
theorem waitSecRolloverConstStuck (s : Nat) (fuel : Nat) :
    ∀ i cur, cur = 0 ∨ cur = s →
      (waitSecRolloverAux (fun _ => s) 0 cur i fuel).2 = none := by
  induction fuel with
  | zero => intro i cur _; rfl
  | succ n ih =>
      intro i cur hcur
      by_cases hz : cur = 0
      · simp only [waitSecRolloverAux, hz, if_pos rfl]
        exact ih (i + 1) s (Or.inr rfl)
      · have hs : cur = s := hcur.resolve_left hz
        have hlt : ¬ cur < s := by omega
        simp only [waitSecRolloverAux, if_neg hz, if_neg hlt]
        exact ih (i + 1) cur (Or.inr hs)

/-- C9 counterexample: there is a hardware behaviour — semaphore polls and
reads always succeed, the reported seconds value stays at 5 — under which
`zl3073x_ptp_wait_sec_rollover` never returns: no iteration bound makes the
loop finish, so it is not bounded by an outer iteration cap. -/
theorem C9_counterexample_unbounded_loop :
    ¬ ∃ n, (zl3073x_ptp_wait_sec_rollover (fun _ => 5) 0 n).2.isSome := by
  rintro ⟨n, h⟩
  rw [zl3073x_ptp_wait_sec_rollover,
    waitSecRolloverConstStuck 5 n 0 0 (Or.inl rfl)] at h
  exact Bool.false_ne_true h

/-- C9 (amended): the retry loop of `zl3073x_ptp_wait_sec_rollover` has no
outer iteration cap — whenever the polls succeed but the reported seconds
value stays at any constant, the loop is still running after every number of
iterations — while a behaviour whose seconds value increases terminates the
loop with success (here after two iterations). -/
theorem C9_rollover_no_iteration_cap :
    (∀ s n, (zl3073x_ptp_wait_sec_rollover (fun _ => s) 0 n).2 = none) ∧
    (zl3073x_ptp_wait_sec_rollover (fun i => 5 + i) 0 2).2 = some 0 := by
  refine ⟨fun s n => ?_, by decide⟩
  exact waitSecRolloverConstStuck s n 0 0 (Or.inl rfl)

/-- Truncating remainder of a value already inside the open interval
(-b, b) is the value itself (the sub-second part of a sub-second delta is
the whole delta). -/
theorem tmod_eq_self_of_abs_lt {a b : Int} (h1 : -b < a) (h2 : a < b) :
    a.tmod b = a := by
  rcases le_or_lt 0 a with ha | ha
  · exact Int.tmod_eq_of_lt ha h2
  · have h0 : (0 : Int) ≤ -a := by omega
    have hlt : -a < b := by omega
    have hdiv : a.tdiv b = 0 := by
      rw [show a = -(-a) by ring, Int.neg_tdiv, Int.tdiv_eq_zero_of_lt h0 hlt,
        neg_zero]
    rw [Int.tmod_def, hdiv, Int.mul_zero, Int.sub_zero]

/-- The signed 32-bit wrap of zero is zero. -/
theorem s32wrap_zero : s32wrap 0 = 0 := by decide

/-- The phase-step sequence touches only the phase-step registers and the
synthesizer mailbox; for a valid DPLL index it contains no write to any ToD
register. -/
theorem steptime_no_tod_writes (index perout_mask outputCtrlByte : Nat)
    (sf : Nat × Nat × Nat × Nat) (d : Int) (hidx : index < 2) :
    todWriteEvents index
      (zl3073x_ptp_steptime index perout_mask outputCtrlByte sf d) = [] := by
  interval_cases index <;>
    simp [todWriteEvents, zl3073x_ptp_steptime, synthFreqTrace, wrEv,
      zl3073x_swap, DPLL_TOD_SEC, DPLL_TOD_NSEC, DPLL_TOD_CTRL,
      DPLL_OUTPUT_PHASE_STEP_NUMBER, DPLL_OUTPUT_PHASE_STEP_DATA,
      DPLL_OUTPUT_PHASE_STEP_MASK_REG, DPLL_OUTPUT_PHASE_STEP_CTRL,
      DPLL_SYNTH_MB_MASK, DPLL_SYNTH_MB_SEM, List.filter]

/-- C5: the two tiers of `zl3073x_ptp_adjtime` (the spec's `step_or_slew`).
For `|delta| >= 1 s` (and provided the rollover loop returns) the call first
runs `zl3073x_ptp_wait_sec_rollover`, then reads the predicted next-second
time, then writes the ToD effective at the next second, polls the semaphore
and finally applies only the sub-second remainder through the phase-step
mechanism — in exactly that order.  For `|delta| < 1 s` the sub-second
remainder is the whole delta, the call is exactly the phase-step sequence,
and that sequence contains no write to any ToD register (no ToD set). -/
theorem C5_adjtime_two_tiers (env : AdjtimeEnv) (index : Nat) (delta : Int)
    (hidx : index < 2) :
    ((NSEC_PER_SEC ≤ delta ∨ delta ≤ -NSEC_PER_SEC) →
      ∀ r, (zl3073x_ptp_wait_sec_rollover env.rollSecAt index env.rollFuel).2 =
          some r →
        zl3073x_ptp_adjtime env index delta =
          some { ret := 0,
                 events :=
                   (zl3073x_ptp_wait_sec_rollover env.rollSecAt index
                     env.rollFuel).1 ++
                   gettimeTrace index ZL3073X_TOD_CTRL_CMD_READ_NEXT_1HZ ++
                   settimeTrace index
                     (timespec64_add (gettimeValue env.predSecRaw env.predNsecRaw)
                       (ns_to_timespec64 (delta.tdiv NSEC_PER_SEC * NSEC_PER_SEC)))
                     ZL3073X_TOD_CTRL_CMD_WRITE_NEXT_1HZ ++
                   [.poll (DPLL_TOD_CTRL index) DPLL_TOD_CTRL_SEM true] ++
                   zl3073x_ptp_steptime index env.perout_mask env.outputCtrlByte
                     env.synthFields (delta.tmod NSEC_PER_SEC) }) ∧
    (-NSEC_PER_SEC < delta → delta < NSEC_PER_SEC →
      delta.tmod NSEC_PER_SEC = delta ∧
      zl3073x_ptp_adjtime env index delta =
        some { ret := 0,
               events := zl3073x_ptp_steptime index env.perout_mask
                 env.outputCtrlByte env.synthFields delta } ∧
      todWriteEvents index
        (zl3073x_ptp_steptime index env.perout_mask env.outputCtrlByte
          env.synthFields delta) = []) := by
  constructor
  · intro hbig r hr
    unfold zl3073x_ptp_adjtime
    rcases hp : zl3073x_ptp_wait_sec_rollover env.rollSecAt index env.rollFuel
      with ⟨evs, o⟩
    rw [hp] at hr
    simp only at hr
    subst hr
    rw [if_pos hbig]
  · intro h1 h2
    have hmod : delta.tmod NSEC_PER_SEC = delta := tmod_eq_self_of_abs_lt h1 h2
    refine ⟨hmod, ?_,
      steptime_no_tod_writes index env.perout_mask env.outputCtrlByte
        env.synthFields delta hidx⟩
    unfold zl3073x_ptp_adjtime
    rw [if_neg (by omega), hmod]

/-- Environment used to instantiate the adjtime theorems: the rollover loop
sees seconds 5 then 6 (so it breaks on the second iteration), the predicted
read returns 7 s, one periodic output on pin pair 0, synthesizer fields all
1. -/
def adjtimeEnvW : AdjtimeEnv :=
  { rollSecAt := fun i => 5 + i, rollFuel := 2, predSecRaw := 7, predNsecRaw := 0,
    perout_mask := 1, outputCtrlByte := 0, synthFields := (1, 1, 1, 1) }

/-- Witness for C5 at delta = +2 s (both-tier hypothesis discharged with the
terminating rollover environment) and at delta = 5 ns. -/
theorem C5_adjtime_two_tiers_witness :
    (zl3073x_ptp_adjtime adjtimeEnvW 0 2000000000 =
      some { ret := 0,
             events :=
               (zl3073x_ptp_wait_sec_rollover adjtimeEnvW.rollSecAt 0
                 adjtimeEnvW.rollFuel).1 ++
               gettimeTrace 0 ZL3073X_TOD_CTRL_CMD_READ_NEXT_1HZ ++
               settimeTrace 0
                 (timespec64_add
                   (gettimeValue adjtimeEnvW.predSecRaw adjtimeEnvW.predNsecRaw)
                   (ns_to_timespec64
                     ((2000000000 : Int).tdiv NSEC_PER_SEC * NSEC_PER_SEC)))
                 ZL3073X_TOD_CTRL_CMD_WRITE_NEXT_1HZ ++
               [.poll (DPLL_TOD_CTRL 0) DPLL_TOD_CTRL_SEM true] ++
               zl3073x_ptp_steptime 0 adjtimeEnvW.perout_mask
                 adjtimeEnvW.outputCtrlByte adjtimeEnvW.synthFields
                 ((2000000000 : Int).tmod NSEC_PER_SEC) }) ∧
    ((5 : Int).tmod NSEC_PER_SEC = 5 ∧
      zl3073x_ptp_adjtime adjtimeEnvW 0 5 =
        some { ret := 0,
               events := zl3073x_ptp_steptime 0 adjtimeEnvW.perout_mask
                 adjtimeEnvW.outputCtrlByte adjtimeEnvW.synthFields 5 } ∧
      todWriteEvents 0
        (zl3073x_ptp_steptime 0 adjtimeEnvW.perout_mask
          adjtimeEnvW.outputCtrlByte adjtimeEnvW.synthFields 5) = []) :=
  ⟨(C5_adjtime_two_tiers adjtimeEnvW 0 2000000000 (by decide)).1
      (Or.inl (by decide)) 0 (by decide),
   (C5_adjtime_two_tiers adjtimeEnvW 0 5 (by decide)).2 (by decide) (by decide)⟩

/-- C7 counterexample: `zl3073x_ptp_adjtime` with delta = 0 does not stop at
the idle poll — it runs the whole phase-step sequence, whose trace contains
register writes (step count, mailbox select and request, step data, step
mask and the step command itself). -/
theorem C7_counterexample_zero_delta_writes :
    zl3073x_ptp_adjtime adjtimeEnvW 0 0 =
      some { ret := 0, events := zl3073x_ptp_steptime 0 1 0 (1, 1, 1, 1) 0 } ∧
    (zl3073x_ptp_steptime 0 1 0 (1, 1, 1, 1) 0).filter Ev.isWr ≠ [] := by
  decide

/-- C7 (amended): `zl3073x_ptp_adjtime 0` performs no ToD write, but beyond
the mandatory idle poll it executes the full phase-step sequence with a zero
step value: it writes the step count, performs the synthesizer mailbox read
protocol, writes zero to the step-data register, writes the output mask and
issues the step command. -/
theorem C7_adjtime_zero_phase_step (env : AdjtimeEnv) (index : Nat)
    (hidx : index < 2) :
    zl3073x_ptp_adjtime env index 0 =
      some { ret := 0,
             events := zl3073x_ptp_steptime index env.perout_mask
               env.outputCtrlByte env.synthFields 0 } ∧
    wrEv DPLL_OUTPUT_PHASE_STEP_NUMBER [1] ∈
      zl3073x_ptp_steptime index env.perout_mask env.outputCtrlByte
        env.synthFields 0 ∧
    wrEv DPLL_OUTPUT_PHASE_STEP_DATA (leBytes 4 0) ∈
      zl3073x_ptp_steptime index env.perout_mask env.outputCtrlByte
        env.synthFields 0 ∧
    todWriteEvents index
      (zl3073x_ptp_steptime index env.perout_mask env.outputCtrlByte
        env.synthFields 0) = [] := by
  refine ⟨?_, ?_, ?_,
    steptime_no_tod_writes index env.perout_mask env.outputCtrlByte
      env.synthFields 0 hidx⟩
  · unfold zl3073x_ptp_adjtime
    rw [if_neg (by decide)]
    simp
  · simp [zl3073x_ptp_steptime]
  · simp [zl3073x_ptp_steptime, s32wrap_zero]

/-- Witness for C7 at DPLL index 1 with the concrete environment. -/
theorem C7_adjtime_zero_phase_step_witness :
    zl3073x_ptp_adjtime adjtimeEnvW 1 0 =
      some { ret := 0,
             events := zl3073x_ptp_steptime 1 adjtimeEnvW.perout_mask
               adjtimeEnvW.outputCtrlByte adjtimeEnvW.synthFields 0 } ∧
    wrEv DPLL_OUTPUT_PHASE_STEP_NUMBER [1] ∈
      zl3073x_ptp_steptime 1 adjtimeEnvW.perout_mask adjtimeEnvW.outputCtrlByte
        adjtimeEnvW.synthFields 0 ∧
    wrEv DPLL_OUTPUT_PHASE_STEP_DATA (leBytes 4 0) ∈
      zl3073x_ptp_steptime 1 adjtimeEnvW.perout_mask adjtimeEnvW.outputCtrlByte
        adjtimeEnvW.synthFields 0 ∧
    todWriteEvents 1
      (zl3073x_ptp_steptime 1 adjtimeEnvW.perout_mask adjtimeEnvW.outputCtrlByte
        adjtimeEnvW.synthFields 0) = [] :=
  C7_adjtime_zero_phase_step adjtimeEnvW 1 (by decide)

/-- Environment used to instantiate the periodic-output theorems: pin 0
found, all read bytes zero, synthesizer fields all 1. -/
def peroutEnvW : PeroutEnv :=
  { pin := 0, modeByte := 0, outputCtrlByte := 0, synthFields := (1, 1, 1, 1) }

/-- C6 counterexample: a request whose start offset is a non-zero whole
number of seconds (start = 5 s + 0 ns) with an exact one-second period is
not rejected — the validation in `zl3073x_ptp_enable` checks only
`start.nsec`, so the request proceeds to `zl3073x_ptp_perout_enable` and
registers are written, where the claim requires a range error before any
register write. -/
theorem C6_counterexample_start_sec_accepted :
    (zl3073x_ptp_enable_on peroutEnvW
        { start_sec := 5, start_nsec := 0, period_sec := 1, period_nsec := 0,
          dutyFlag := false, on_sec := 0, on_nsec := 0 }).ret ≠ -ERANGE_NUM ∧
    (zl3073x_ptp_enable_on peroutEnvW
        { start_sec := 5, start_nsec := 0, period_sec := 1, period_nsec := 0,
          dutyFlag := false, on_sec := 0, on_nsec := 0 }).events.filter Ev.isWr ≠
      [] := by
  decide

/-- C6 (amended): `zl3073x_ptp_enable` rejects a periodic-output request
with `-ERANGE` and with no register access exactly when the sub-second start
offset is non-zero, the period seconds differ from 1 or the sub-second
period is non-zero; whole-second start offsets are not checked.  An accepted
request is handed unchanged to `zl3073x_ptp_perout_enable`. -/
theorem C6_perout_validation (env : PeroutEnv) (rq : PeroutRequest) :
    ((rq.start_nsec ≠ 0 ∨ rq.period_sec ≠ 1 ∨ rq.period_nsec ≠ 0) →
      zl3073x_ptp_enable_on env rq = { ret := -ERANGE_NUM, events := [] }) ∧
    (rq.start_nsec = 0 → rq.period_sec = 1 → rq.period_nsec = 0 →
      zl3073x_ptp_enable_on env rq = zl3073x_ptp_perout_enable env rq) := by
  constructor
  · intro h
    unfold zl3073x_ptp_enable_on
    rw [if_pos h]
  · intro h1 h2 h3
    unfold zl3073x_ptp_enable_on
    rw [if_neg (by simp [h1, h2, h3])]

/-- Witness for C6 at the claim's scenario: period = 0 s + 5 ns is rejected
with `-ERANGE` and an empty trace. -/
theorem C6_perout_validation_witness :
    zl3073x_ptp_enable_on peroutEnvW
        { start_sec := 0, start_nsec := 0, period_sec := 0, period_nsec := 5,
          dutyFlag := false, on_sec := 0, on_nsec := 0 } =
      { ret := -ERANGE_NUM, events := [] } :=
  (C6_perout_validation peroutEnvW
      { start_sec := 0, start_nsec := 0, period_sec := 0, period_nsec := 5,
        dutyFlag := false, on_sec := 0, on_nsec := 0 }).1
    (Or.inr (Or.inl (by decide)))

end Zl3073x
